import Mathlib

/-!
Verification development for the creativemate-app bridging server.
The definitions below are a shallow embedding of the Express route
handlers in src/routes/pythonRoutes.ts, the variant router found in the
repository (prompt-audio endpoint), and the Electron server/main files.
Route handlers are modelled as pure functions from the request data and
an explicit trace of child-process events to the list of response
actions they perform, the spawn calls they make, the kill calls they
issue, and whether an event fired with no registered listener.
-/

/-- JSON values, the shape of every JSON body built by the routes. -/
inductive JVal where
  | null
  | bool (b : Bool)
  | num (n : Int)
  | str (s : String)
  | arr (elems : List JVal)
  | obj (fields : List (String × JVal))

/-- Escape of one character inside a JSON string, as JSON.stringify does:
quote 34, backslash 92, newline, carriage return, tab, and other control
characters as unicode escapes. -/
def jsonEscapeChar (c : Char) : String :=
  if c.toNat = 34 then "\\\""
  else if c.toNat = 92 then "\\\\"
  else if c.toNat = 10 then "\\n"
  else if c.toNat = 13 then "\\r"
  else if c.toNat = 9 then "\\t"
  else if c.toNat < 32 then
    "\\u00" ++ String.singleton ((String.toList "0123456789abcdef").getD (c.toNat / 16) (Char.ofNat 48))
      ++ String.singleton ((String.toList "0123456789abcdef").getD (c.toNat % 16) (Char.ofNat 48))
  else String.singleton c

/-- A JSON string literal with its surrounding quotes. -/
def jsonQuote (s : String) : String :=
  "\"" ++ String.join (s.toList.map jsonEscapeChar) ++ "\""

mutual

/-- Serialization of a JSON value, as JSON.stringify renders it. -/
def stringifyJVal : JVal → String
  | JVal.null => "null"
  | JVal.bool true => "true"
  | JVal.bool false => "false"
  | JVal.num n => toString n
  | JVal.str s => jsonQuote s
  | JVal.arr xs => "[" ++ stringifyArr xs ++ "]"
  | JVal.obj fs => "\x7b" ++ stringifyObj fs ++ "\x7d"

/-- Comma-separated serialization of array elements. -/
def stringifyArr : List JVal → String
  | [] => ""
  | [x] => stringifyJVal x
  | x :: y :: rest => stringifyJVal x ++ "," ++ stringifyArr (y :: rest)

/-- Comma-separated serialization of object fields. -/
def stringifyObj : List (String × JVal) → String
  | [] => ""
  | [(k, v)] => jsonQuote k ++ ":" ++ stringifyJVal v
  | (k, v) :: y :: rest => jsonQuote k ++ ":" ++ stringifyJVal v ++ "," ++ stringifyObj (y :: rest)

end

/-- The base64 alphabet used by Buffer.toString with base64 encoding. -/
def base64Alphabet : String :=
  "ABCDEFGHIJKLMNOPQRSTUVWXYZabcdefghijklmnopqrstuvwxyz0123456789+/"

/-- The base64 digit for a 6-bit value. -/
def b64Char (n : Nat) : Char :=
  (String.toList base64Alphabet).getD n (Char.ofNat 65)

/-- Standard base64 of a byte sequence, as Buffer.toString renders it. -/
def base64Encode : List Nat → String
  | [] => ""
  | [a] =>
    String.mk [b64Char ((a % 256) / 4), b64Char ((a % 4) * 16)] ++ "=="
  | [a, b] =>
    String.mk [b64Char ((a % 256) / 4), b64Char ((a % 4) * 16 + (b % 256) / 16),
      b64Char ((b % 16) * 4)] ++ "="
  | a :: b :: c :: rest =>
    String.mk [b64Char ((a % 256) / 4), b64Char ((a % 4) * 16 + (b % 256) / 16),
      b64Char ((b % 16) * 4 + (c % 256) / 64), b64Char (c % 64)] ++ base64Encode rest

/-- The process environment the path constants of pythonRoutes.ts depend
on: NODE_ENV, process.platform, the path separator, process.cwd and
process.resourcesPath. -/
structure Env where
  isDev : Bool
  isWin32 : Bool
  sep : String
  cwd : String
  resourcesPath : String
deriving DecidableEq

/-- path.join on already-normalized components: interleave the separator. -/
def pathJoin (sep : String) (parts : List String) : String :=
  String.intercalate sep parts

/-- PYTHON_VENV_PATH of pythonRoutes.ts lines 20-22. -/
def pythonVenvPath (e : Env) : String :=
  if e.isDev then pathJoin e.sep [e.cwd, "venv_creativemate"]
  else pathJoin e.sep [e.resourcesPath, "venv_creativemate"]

/-- PYTHON_EXECUTABLE of pythonRoutes.ts lines 24-26: the resolved
virtual-environment interpreter. -/
def pythonExecutable (e : Env) : String :=
  if e.isWin32 then pathJoin e.sep [pythonVenvPath e, "Scripts", "python.exe"]
  else pathJoin e.sep [pythonVenvPath e, "bin", "python3"]

/-- PYTHON_SCRIPT_PATH of pythonRoutes.ts lines 28-30. -/
def pythonScriptPath (e : Env) : String :=
  if e.isDev then pathJoin e.sep [e.cwd, "src", "python", "llmUtils.py"]
  else pathJoin e.sep [e.resourcesPath, "src", "python", "llmUtils.py"]

/-- PYTHON_SCRIPT_PATH of the variant router (unnamed part): always
process.cwd() based. -/
def variantScriptPath (e : Env) : String :=
  pathJoin e.sep [e.cwd, "src", "python", "llmUtils.py"]

/-- One prior conversation turn, per the messages field of the request. -/
structure ChatMessage where
  role : String
  content : String
deriving DecidableEq

/-- The parsed body fields of a /prompt request before the uploaded file
is merged in: prompt (defaulted to the empty string), images and
messages (defaulted to empty arrays). -/
structure PromptBody where
  prompt : String
  images : List String
  messages : List ChatMessage
deriving DecidableEq

/-- The /prompt handler input after multer ran: body fields plus the
optional audio buffer req.file.buffer, a byte sequence. -/
structure PromptRequest where
  prompt : String
  images : List String
  messages : List ChatMessage
  audio : Option (List Nat)
deriving DecidableEq

/-- A multipart upload as multer presents it: req.file. The size field
is the byte length multer compares against the configured limits; the
content field is req.file.buffer. -/
structure UploadFile where
  originalname : String
  mimetype : String
  size : Nat
  content : List Nat
deriving DecidableEq

/-- One event delivered to the registered listeners of a request: child
stdout data, child stderr data, the child close event with its nullable
exit code (null when the child was terminated by a signal), the child
error event (spawn failure), and the client disconnect event on the
request object. -/
inductive REvent where
  | stdout (data : String)
  | stderr (data : String)
  | closed (code : Option Int)
  | procError (message : String)
  | disconnect
deriving DecidableEq

/-- One res.write: either a raw string written verbatim, or an
SSE-framed message, written as the text of data colon space, the
serialized payload, and a blank line. -/
inductive WireWrite where
  | raw (s : String)
  | sse (payload : JVal)

/-- One observable action on the HTTP response: res.setHeader, a JSON
response with a status (res.json is status 200), a streamed write, a
res.end, or the Express default error handler page (non-JSON; rendered
when middleware passes an error that no error middleware catches). -/
inductive RespAction where
  | setHeader (k v : String)
  | jsonRes (status : Nat) (body : JVal)
  | write (w : WireWrite)
  | endResponse
  | defaultErrorPage (status : Nat) (message : String)

/-- One child_process.spawn call: executable, argument vector, the
writes performed on the child stdin, and whether stdin was ended. -/
structure SpawnCall where
  exe : String
  args : List String
  stdinWrites : List String
  stdinEnded : Bool
deriving DecidableEq

/-- Everything a route invocation does: response actions in order, the
spawn calls made, the number of kill calls issued on the child, and
whether some event fired that had no registered listener (an unhandled
error event crashes the Node process). -/
structure HandlerResult where
  actions : List RespAction
  spawns : List SpawnCall
  kills : Nat
  unhandledError : Bool

/-- The string rendered onto the wire for one write. -/
def serializeWrite : WireWrite → String
  | WireWrite.raw s => s
  | WireWrite.sse j => "data: " ++ stringifyJVal j ++ "\n\n"

/-- The SSE headers set by the streaming endpoints (pythonRoutes.ts
lines 93-96). -/
def sseHeaders : List RespAction :=
  [RespAction.setHeader "Content-Type" "text/event-stream",
   RespAction.setHeader "Cache-Control" "no-cache",
   RespAction.setHeader "Connection" "keep-alive",
   RespAction.setHeader "Access-Control-Allow-Origin" "*"]

/-- The JSON rendering of the nullable close-event code: null when the
child was terminated by a signal, the integer exit code otherwise. -/
def codeJ : Option Int → JVal
  | none => JVal.null
  | some n => JVal.num n

/-- The payload of the terminal complete event written by the close
handlers of /prompt and /prompt-audio. -/
def completePayload (c : Option Int) : JVal :=
  JVal.obj [("type", JVal.str "complete"), ("code", codeJ c)]

/-- The payload of a framed chunk event (the variant /prompt-audio
stdout handler). -/
def chunkPayload (s : String) : JVal :=
  JVal.obj [("type", JVal.str "chunk"), ("content", JVal.str s)]

/-- The payload of a framed error event (the variant /prompt-audio
error handler). -/
def errorPayload (m : String) : JVal :=
  JVal.obj [("type", JVal.str "error"), ("content", JVal.str m)]

/-- JSON of one conversation turn inside the payload. -/
def messageJ (m : ChatMessage) : JVal :=
  JVal.obj [("role", JVal.str m.role), ("content", JVal.str m.content)]

/-- The inputData object of the /prompt handler (pythonRoutes.ts lines
99-104): prompt, images, messages, and audioBuffer, the base64 of the
uploaded audio or null. -/
def promptInputData (req : PromptRequest) : JVal :=
  JVal.obj [("prompt", JVal.str req.prompt),
    ("images", JVal.arr (req.images.map JVal.str)),
    ("messages", JVal.arr (req.messages.map messageJ)),
    ("audioBuffer", match req.audio with
      | none => JVal.null
      | some b => JVal.str (base64Encode b))]

/-- userInput of the /prompt handler: JSON.stringify of inputData. -/
def promptUserInput (req : PromptRequest) : String :=
  stringifyJVal (promptInputData req)

/-- The inputData object of the variant /prompt-audio handler: its last
field is named audio, not audioBuffer. -/
def promptAudioInputData (req : PromptRequest) : JVal :=
  JVal.obj [("prompt", JVal.str req.prompt),
    ("images", JVal.arr (req.images.map JVal.str)),
    ("messages", JVal.arr (req.messages.map messageJ)),
    ("audio", match req.audio with
      | none => JVal.null
      | some b => JVal.str (base64Encode b))]

/-- The quote-escaping the variant /prompt-audio handler applies to the
serialized payload: every double quote becomes backslash quote. -/
def escapeQuotes (s : String) : String :=
  String.join (s.toList.map fun c =>
    if c.toNat = 34 then "\\\"" else String.singleton c)

/-- A single-quote character, written by the variant /prompt-audio
handler around the payload argument. -/
def singleQuote : String := "\x27"

/-- userInput of the variant /prompt-audio handler: stringify then
escape every double quote. -/
def promptAudioUserInput (req : PromptRequest) : String :=
  escapeQuotes (stringifyJVal (promptAudioInputData req))

/-- The spawn call of the /prompt handler (pythonRoutes.ts lines
112-118): the resolved venv executable, the script as sole argument,
the full payload written once to stdin, stdin then ended. -/
def promptSpawnCall (e : Env) (req : PromptRequest) : SpawnCall :=
  { exe := pythonExecutable e,
    args := [pythonScriptPath e],
    stdinWrites := [promptUserInput req],
    stdinEnded := true }

/-- The spawn call of the variant /prompt-audio handler: the bare
interpreter name, and the quote-wrapped escaped payload passed as a
second command-line argument; nothing is written to stdin. -/
def promptAudioSpawnCall (e : Env) (req : PromptRequest) : SpawnCall :=
  { exe := "python3",
    args := [variantScriptPath e,
      singleQuote ++ promptAudioUserInput req ++ singleQuote],
    stdinWrites := [],
    stdinEnded := false }

/-- The inputData object of /transcribe-audio (pythonRoutes.ts lines
166-168). -/
def transcribeInputData (buf : List Nat) : JVal :=
  JVal.obj [("audio_to_transcribe", JVal.str (base64Encode buf))]

/-- The spawn call of /transcribe-audio (pythonRoutes.ts lines
173-178): the bare interpreter name python3, full payload to stdin. -/
def transcribeSpawnCall (e : Env) (buf : List Nat) : SpawnCall :=
  { exe := "python3",
    args := [pythonScriptPath e],
    stdinWrites := [stringifyJVal (transcribeInputData buf)],
    stdinEnded := true }

/-- The inputData object of /upload-document (pythonRoutes.ts lines
246-252). -/
def documentInputData (f : UploadFile) : JVal :=
  JVal.obj [("document_to_ingest", JVal.obj
    [("content", JVal.str (base64Encode f.content)),
     ("filename", JVal.str f.originalname),
     ("size", JVal.num (Int.ofNat f.size))])]

/-- The spawn call of /upload-document (pythonRoutes.ts lines 257-262):
the bare interpreter name python3, full payload to stdin. -/
def uploadSpawnCall (e : Env) (f : UploadFile) : SpawnCall :=
  { exe := "python3",
    args := [pythonScriptPath e],
    stdinWrites := [stringifyJVal (documentInputData f)],
    stdinEnded := true }

/-- The /prompt validation test (pythonRoutes.ts line 88): the prompt
string is falsy, the images array is empty and no file buffer exists.
An attached buffer is truthy even when empty, so only absence counts. -/
def promptValidationFails (req : PromptRequest) : Bool :=
  (req.prompt == "") && req.images.isEmpty && req.audio.isNone

/-- The handler input assembled from body fields and the multer file. -/
def promptReqOf (body : PromptBody) (file : Option UploadFile) : PromptRequest :=
  { prompt := body.prompt, images := body.images, messages := body.messages,
    audio := file.map fun f => f.content }

/-- The 400 body of the /prompt validation failure. -/
def promptErrorBody : JVal :=
  JVal.obj [("error", JVal.str "Prompt, images, or audio are required")]

/-- The 500 body of the /prompt catch branch (synchronous spawn
exception, pythonRoutes.ts line 151). -/
def promptCatchBody : JVal :=
  JVal.obj [("error", JVal.str "Failed to process prompt")]

/-- The 500 body of the variant /prompt-audio catch branch. -/
def promptAudioCatchBody : JVal :=
  JVal.obj [("error", JVal.str "Failed to process audio prompt")]

/-- The response actions of the listeners the /prompt handler registers
(pythonRoutes.ts lines 120-135): stdout data is written raw and
unframed (the framed write is commented out in the source); stderr only
logs; the close handler writes the framed complete event and ends the
response. No listener exists for the error event or for client
disconnect (both are commented out in the source). -/
def promptEventActions : REvent → List RespAction
  | REvent.stdout d => [RespAction.write (WireWrite.raw d)]
  | REvent.stderr _ => []
  | REvent.closed c => [RespAction.write (WireWrite.sse (completePayload c)), RespAction.endResponse]
  | REvent.procError _ => []
  | REvent.disconnect => []

/-- Kill calls issued by the /prompt listeners: only the close handler
calls kill (after the child already exited); the disconnect handler is
commented out. -/
def promptEventKills : REvent → Nat
  | REvent.closed _ => 1
  | _ => 0

/-- The variant /prompt-audio listeners: framed chunk events on stdout,
framed complete on close (no kill there), a registered kill on client
disconnect, and a registered error handler writing a framed error event
and ending the response. -/
def promptAudioEventActions : REvent → List RespAction
  | REvent.stdout d => [RespAction.write (WireWrite.sse (chunkPayload d))]
  | REvent.stderr _ => []
  | REvent.closed c => [RespAction.write (WireWrite.sse (completePayload c)), RespAction.endResponse]
  | REvent.procError m => [RespAction.write (WireWrite.sse (errorPayload m)), RespAction.endResponse]
  | REvent.disconnect => []

/-- Kill calls issued by the variant /prompt-audio listeners: only the
client-disconnect handler kills the child. -/
def promptAudioEventKills : REvent → Nat
  | REvent.disconnect => 1
  | _ => 0

/-- Concatenation of the per-event action lists, in event order. -/
def eventsActions (f : REvent → List RespAction) : List REvent → List RespAction
  | [] => []
  | ev :: rest => f ev ++ eventsActions f rest

/-- Total number of kill calls over a trace. -/
def eventsKills (f : REvent → Nat) : List REvent → Nat
  | [] => 0
  | ev :: rest => f ev + eventsKills f rest

/-- Whether a trace contains an error event; with no error listener
registered, such an event is an uncaught exception in the Node event
loop. -/
def hasProcError : List REvent → Bool
  | [] => false
  | REvent.procError _ :: _ => true
  | _ :: rest => hasProcError rest

/-- The POST /prompt handler body (pythonRoutes.ts lines 77-153), after
multer accepted the upload: validation, SSE headers, spawn (the
spawnThrows flag selects the catch branch taken on a synchronous spawn
exception), then the registered listeners folded over the event trace.
The error event has no listener, so a trace containing one sets the
unhandled flag. -/
def promptHandler (e : Env) (req : PromptRequest) (spawnThrows : Bool)
    (trace : List REvent) : HandlerResult :=
  if promptValidationFails req then
    { actions := [RespAction.jsonRes 400 promptErrorBody],
      spawns := [], kills := 0, unhandledError := false }
  else if spawnThrows then
    { actions := sseHeaders ++ [RespAction.jsonRes 500 promptCatchBody],
      spawns := [], kills := 0, unhandledError := false }
  else
    { actions := sseHeaders ++ eventsActions promptEventActions trace,
      spawns := [promptSpawnCall e req],
      kills := eventsKills promptEventKills trace,
      unhandledError := hasProcError trace }

/-- The variant POST /prompt-audio handler body: same validation and
headers, but framed chunk events, a registered error listener, the
payload passed on the command line, and a kill registered on client
disconnect. -/
def promptAudioHandler (e : Env) (req : PromptRequest) (spawnThrows : Bool)
    (trace : List REvent) : HandlerResult :=
  if promptValidationFails req then
    { actions := [RespAction.jsonRes 400 promptErrorBody],
      spawns := [], kills := 0, unhandledError := false }
  else if spawnThrows then
    { actions := sseHeaders ++ [RespAction.jsonRes 500 promptAudioCatchBody],
      spawns := [], kills := 0, unhandledError := false }
  else
    { actions := sseHeaders ++ eventsActions promptAudioEventActions trace,
      spawns := [promptAudioSpawnCall e req],
      kills := eventsKills promptAudioEventKills trace,
      unhandledError := false }

/-- The multer audio limit (10 MiB, pythonRoutes.ts lines 37 and 57). -/
def audioLimit : Nat := 10 * 1024 * 1024

/-- The multer document limit (20 MiB, pythonRoutes.ts line 43). -/
def documentLimit : Nat := 20 * 1024 * 1024

/-- The audio upload middleware (multer with a 10 MiB file size limit
and no fileFilter): some message when the middleware rejects the
request, none when the handler runs. A limit violation raises a multer
error whose message is File too large. -/
def audioUploadReject (file : Option UploadFile) : Option String :=
  match file with
  | none => none
  | some f => if audioLimit < f.size then some "File too large" else none

/-- The document upload middleware (multer, 20 MiB limit, fileFilter
accepting only the application/pdf content type, pythonRoutes.ts lines
41-52). The fileFilter sees the file header before the size limit can
trigger, so a wrong content type rejects first. -/
def documentUploadReject (file : Option UploadFile) : Option String :=
  match file with
  | none => none
  | some f =>
    if f.mimetype == "application/pdf" then
      if documentLimit < f.size then some "File too large" else none
    else some "Only PDF files are allowed"

/-- A middleware rejection with no error middleware installed anywhere
in the app (server.ts installs only cors, json and the router): the
Express default error handler renders a non-JSON error page, with
status 500 because neither a multer error nor the fileFilter error
carries a status field. -/
def middlewareRejection (msg : String) : HandlerResult :=
  { actions := [RespAction.defaultErrorPage 500 msg],
    spawns := [], kills := 0, unhandledError := false }

/-- The full POST /prompt route: the multer audio middleware, then the
handler with the file buffer merged into the request. -/
def promptRoute (e : Env) (body : PromptBody) (file : Option UploadFile)
    (spawnThrows : Bool) (trace : List REvent) : HandlerResult :=
  match audioUploadReject file with
  | some msg => middlewareRejection msg
  | none => promptHandler e (promptReqOf body file) spawnThrows trace

/-- Accumulation state of the buffering routes: the collected stdout,
the collected stderr, and the response actions performed so far. -/
structure CollectState where
  output : String
  errorOutput : String
  actions : List RespAction

/-- One event step of a buffering route (/transcribe-audio and
/upload-document share this structure): stdout and stderr data are
appended to the accumulators; the close handler responds using the
accumulated output (closeAct); the error handler responds with the
start-failure body (errAct); client disconnect has no listener touching
the response. -/
def collectStep (closeAct : String → String → Option Int → RespAction)
    (errAct : String → RespAction) (s : CollectState) (ev : REvent) : CollectState :=
  match ev with
  | REvent.stdout d => { s with output := s.output ++ d }
  | REvent.stderr d => { s with errorOutput := s.errorOutput ++ d }
  | REvent.closed c => { s with actions := s.actions ++ [closeAct s.output s.errorOutput c] }
  | REvent.procError m => { s with actions := s.actions ++ [errAct m] }
  | REvent.disconnect => s

/-- The close-handler response of /transcribe-audio (pythonRoutes.ts
lines 192-207): 200 JSON with the trimmed accumulated stdout when the
exit code is zero, else 500 JSON whose details are stderr when
non-empty, the stdout otherwise. -/
def transcribeCloseAction (output errorOutput : String) (c : Option Int) : RespAction :=
  if c = some 0 then
    RespAction.jsonRes 200 (JVal.obj
      [("success", JVal.bool true),
       ("transcribedText", JVal.str output.trim)])
  else
    RespAction.jsonRes 500 (JVal.obj
      [("success", JVal.bool false),
       ("error", JVal.str "Failed to transcribe audio"),
       ("details", JVal.str (if errorOutput == "" then output else errorOutput))])

/-- The error-handler response of /transcribe-audio (pythonRoutes.ts
lines 209-216). -/
def transcribeErrorAction (msg : String) : RespAction :=
  RespAction.jsonRes 500 (JVal.obj
    [("success", JVal.bool false),
     ("error", JVal.str "Failed to start audio transcription"),
     ("details", JVal.str msg)])

/-- The full POST /transcribe-audio route (pythonRoutes.ts lines
156-225): the multer audio middleware, the missing-file 400, then the
spawn and the buffering listeners folded over the trace. -/
def transcribeRoute (e : Env) (file : Option UploadFile)
    (trace : List REvent) : HandlerResult :=
  match audioUploadReject file with
  | some msg => middlewareRejection msg
  | none =>
    match file with
    | none =>
      { actions := [RespAction.jsonRes 400 (JVal.obj
          [("error", JVal.str "No audio file provided")])],
        spawns := [], kills := 0, unhandledError := false }
    | some f =>
      { actions := (trace.foldl (collectStep transcribeCloseAction transcribeErrorAction)
          { output := "", errorOutput := "", actions := [] }).actions,
        spawns := [transcribeSpawnCall e f.content],
        kills := 0, unhandledError := false }

/-- The close-handler response of /upload-document (pythonRoutes.ts
lines 276-295). -/
def uploadCloseAction (name : String) (size : Nat)
    (output errorOutput : String) (c : Option Int) : RespAction :=
  if c = some 0 then
    RespAction.jsonRes 200 (JVal.obj
      [("success", JVal.bool true),
       ("message", JVal.str "Document processed and added to knowledge base successfully"),
       ("filename", JVal.str name),
       ("size", JVal.num (Int.ofNat size)),
       ("output", JVal.str output.trim)])
  else
    RespAction.jsonRes 500 (JVal.obj
      [("success", JVal.bool false),
       ("error", JVal.str "Failed to process document for RAG"),
       ("details", JVal.str (if errorOutput == "" then output else errorOutput)),
       ("filename", JVal.str name)])

/-- The error-handler response of /upload-document (pythonRoutes.ts
lines 297-304). -/
def uploadErrorAction (msg : String) : RespAction :=
  RespAction.jsonRes 500 (JVal.obj
    [("success", JVal.bool false),
     ("error", JVal.str "Failed to start document processing"),
     ("details", JVal.str msg)])

/-- The full POST /upload-document route (pythonRoutes.ts lines
228-314): the multer document middleware, the missing-file 400, then
the spawn and the buffering listeners folded over the trace. -/
def uploadDocumentRoute (e : Env) (file : Option UploadFile)
    (trace : List REvent) : HandlerResult :=
  match documentUploadReject file with
  | some msg => middlewareRejection msg
  | none =>
    match file with
    | none =>
      { actions := [RespAction.jsonRes 400 (JVal.obj
          [("error", JVal.str "No document file provided")])],
        spawns := [], kills := 0, unhandledError := false }
    | some f =>
      { actions := (trace.foldl
          (collectStep (uploadCloseAction f.originalname f.size) uploadErrorAction)
          { output := "", errorOutput := "", actions := [] }).actions,
        spawns := [uploadSpawnCall e f],
        kills := 0, unhandledError := false }

/-- The GET /health response body (pythonRoutes.ts line 318), the
timestamp modelled as the clock reading in milliseconds (the ISO string
rendering of Date is order-isomorphic to it). -/
structure HealthResponse where
  status : String
  timestamp : Nat
deriving DecidableEq

/-- The process-wide server state the Electron main process keeps: the
recorded ephemeral port (main.ts). -/
structure ServerState where
  port : Nat
deriving DecidableEq

/-- The GET /health handler (pythonRoutes.ts lines 317-319): a pure
function of the clock; it reads nothing from and writes nothing to the
server state. -/
def healthHandler (s : ServerState) (now : Nat) : ServerState × HealthResponse :=
  (s, { status := "OK", timestamp := now })

/-- The stdout chunks of a trace, in order. -/
def stdoutChunks : List REvent → List String
  | [] => []
  | REvent.stdout d :: rest => d :: stdoutChunks rest
  | _ :: rest => stdoutChunks rest

/-- The stderr chunks of a trace, in order. -/
def stderrChunks : List REvent → List String
  | [] => []
  | REvent.stderr d :: rest => d :: stderrChunks rest
  | _ :: rest => stderrChunks rest

/-- Concatenation of a list of strings. -/
def concatStrings : List String → String
  | [] => ""
  | s :: rest => s ++ concatStrings rest

/-- The number of close events in a trace. -/
def countClosed : List REvent → Nat
  | [] => 0
  | REvent.closed _ :: rest => 1 + countClosed rest
  | _ :: rest => countClosed rest

/-- An event the child emits while running normally: stdout or stderr
data (Node delivers all of these before the close event). -/
def isIOEvent : REvent → Bool
  | REvent.stdout _ => true
  | REvent.stderr _ => true
  | _ => false

/-- Modelled from the spec: a string framed as a single SSE
transport-level message, the shape the spec requires of every stream
event (and the shape the close handler actually writes). -/
def isSSEFramed (s : String) : Bool :=
  (String.toList "data: ").isPrefixOf s.toList
    && (String.toList "\n\n").isSuffixOf s.toList

/-- Whether an action is the framed terminal complete event. -/
def isCompleteWrite : RespAction → Bool
  | RespAction.write (WireWrite.sse (JVal.obj (("type", JVal.str "complete") :: _))) => true
  | _ => false

/-- Whether an action writes a JSON response. -/
def isJsonAction : RespAction → Bool
  | RespAction.jsonRes _ _ => true
  | _ => false

/-- Whether an action is a JSON response with a 4xx status. -/
def is4xxJson : RespAction → Bool
  | RespAction.jsonRes st _ => (400 ≤ st) && (st < 500)
  | _ => false

/-- Whether an action is a JSON response with a 5xx status. -/
def is5xxJson : RespAction → Bool
  | RespAction.jsonRes st _ => (500 ≤ st) && (st < 600)
  | _ => false

/-- Whether a JSON value is an integer literal. -/
def JVal.isIntVal : JVal → Bool
  | JVal.num _ => true
  | _ => false

/-- A development-mode posix environment used for concrete runs. -/
def envDev : Env :=
  { isDev := true, isWin32 := false, sep := "/", cwd := "/app",
    resourcesPath := "/res" }

/-- A small in-limit audio upload. -/
def sampleAudio : UploadFile :=
  { originalname := "a.wav", mimetype := "audio/wav", size := 4,
    content := [1, 2, 3, 4] }

/-- A second small in-limit audio upload, used for the spawn-failure
scenario. -/
def sampleAudioB : UploadFile :=
  { originalname := "b.wav", mimetype := "audio/wav", size := 2,
    content := [9, 9] }

/-- A small in-limit PDF upload. -/
def samplePdf : UploadFile :=
  { originalname := "x.pdf", mimetype := "application/pdf", size := 3,
    content := [37, 80, 70] }

/-- A document upload declaring a non-PDF content type. -/
def textDocument : UploadFile :=
  { originalname := "notes.txt", mimetype := "text/plain", size := 5,
    content := [104, 101, 108, 108, 111] }

/-- An audio upload one byte over the 10 MiB limit. -/
def oversizedAudio : UploadFile :=
  { originalname := "big.wav", mimetype := "audio/wav",
    size := 10485761, content := [] }

/-- A document upload one byte over the 20 MiB limit. -/
def oversizedPdf : UploadFile :=
  { originalname := "big.pdf", mimetype := "application/pdf",
    size := 20971521, content := [] }

theorem eventsActions_append (f : REvent → List RespAction) (a b : List REvent) :
    eventsActions f (a ++ b) = eventsActions f a ++ eventsActions f b := by
  induction a with
  | nil => simp [eventsActions]
  | cons ev rest ih => simp [eventsActions, ih]

theorem eventsActions_prompt_io (pre : List REvent) (h : pre.all isIOEvent = true) :
    eventsActions promptEventActions pre =
      (stdoutChunks pre).map fun d => RespAction.write (WireWrite.raw d) := by
  induction pre with
  | nil => simp [eventsActions, stdoutChunks]
  | cons ev rest ih =>
    rw [List.all_cons, Bool.and_eq_true] at h
    cases ev with
    | stdout d => simp [eventsActions, stdoutChunks, promptEventActions, ih h.2]
    | stderr d => simp [eventsActions, stdoutChunks, promptEventActions, ih h.2]
    | closed c => simp [isIOEvent] at h
    | procError m => simp [isIOEvent] at h
    | disconnect => simp [isIOEvent] at h

theorem eventsKills_prompt_eq_countClosed (t : List REvent) :
    eventsKills promptEventKills t = countClosed t := by
  induction t with
  | nil => rfl
  | cons ev rest ih =>
    cases ev <;> simp [eventsKills, promptEventKills, countClosed, ih]

theorem foldl_collectStep_io (ca : String → String → Option Int → RespAction)
    (ea : String → RespAction) (pre : List REvent) (s : CollectState)
    (h : pre.all isIOEvent = true) :
    pre.foldl (collectStep ca ea) s =
      { output := s.output ++ concatStrings (stdoutChunks pre),
        errorOutput := s.errorOutput ++ concatStrings (stderrChunks pre),
        actions := s.actions } := by
  induction pre generalizing s with
  | nil => simp [stdoutChunks, stderrChunks, concatStrings]
  | cons ev rest ih =>
    rw [List.all_cons, Bool.and_eq_true] at h
    cases ev with
    | stdout d =>
      rw [List.foldl_cons]
      show List.foldl (collectStep ca ea) { s with output := s.output ++ d } rest = _
      rw [ih _ h.2]
      simp [stdoutChunks, stderrChunks, concatStrings, String.append_assoc]
    | stderr d =>
      rw [List.foldl_cons]
      show List.foldl (collectStep ca ea) { s with errorOutput := s.errorOutput ++ d } rest = _
      rw [ih _ h.2]
      simp [stdoutChunks, stderrChunks, concatStrings, String.append_assoc]
    | closed c => simp [isIOEvent] at h
    | procError m => simp [isIOEvent] at h
    | disconnect => simp [isIOEvent] at h

theorem countP_complete_raw_map (l : List String) :
    ((l.map fun d => RespAction.write (WireWrite.raw d)).countP isCompleteWrite) = 0 := by
  induction l with
  | nil => rfl
  | cons d rest ih => simp [List.countP_cons, isCompleteWrite, ih]

/-- C5: a POST /prompt request whose prompt text is empty, whose images
array is empty and which carries no audio file is answered with a 400
JSON error; no streaming header is set and no process is spawned,
whatever the messages history, the spawn outcome or the event trace
would have been. -/
theorem c5_empty_request_rejected (e : Env) (msgs : List ChatMessage)
    (spawnThrows : Bool) (trace : List REvent) :
    promptRoute e { prompt := "", images := [], messages := msgs } none spawnThrows trace =
      { actions := [RespAction.jsonRes 400 promptErrorBody],
        spawns := [], kills := 0, unhandledError := false } := rfl

/-- C9: GET /health always answers with status OK, leaves the server
state unchanged, and for two successive calls (the clock not moving
backwards) the second timestamp is at least the first. -/
theorem c9_health_ok_monotone (s : ServerState) (t1 t2 : Nat) (h : t1 ≤ t2) :
    (healthHandler s t1).2.status = "OK" ∧ (healthHandler s t2).2.status = "OK" ∧
    (healthHandler s t1).2.timestamp ≤ (healthHandler s t2).2.timestamp ∧
    (healthHandler s t1).1 = s ∧ (healthHandler s t2).1 = s :=
  ⟨rfl, rfl, h, rfl, rfl⟩

/-- Witness for C9 at the clock readings 3 and 5. -/
theorem c9_health_ok_monotone_witness :
    (3 : Nat) ≤ 5 ∧
    ((healthHandler { port := 3001 } 3).2.status = "OK" ∧
     (healthHandler { port := 3001 } 5).2.status = "OK" ∧
     (healthHandler { port := 3001 } 3).2.timestamp ≤ (healthHandler { port := 3001 } 5).2.timestamp ∧
     (healthHandler { port := 3001 } 3).1 = { port := 3001 } ∧
     (healthHandler { port := 3001 } 5).1 = { port := 3001 }) :=
  ⟨by decide, c9_health_ok_monotone { port := 3001 } 3 5 (by decide)⟩

/-- C10: on /transcribe-audio, a spawn failure on which the child emits
the error event and then the close event makes the error handler and
the close handler each write a response: two JSON response writes are
attempted on one request, the second of which the HTTP layer rejects.
The claim that the two handlers never both write is violated at this
trace. -/
theorem c10_transcribe_double_write :
    (transcribeRoute envDev (some sampleAudioB)
        [REvent.procError "spawn python3 ENOENT", REvent.closed none]).actions =
      [transcribeErrorAction "spawn python3 ENOENT", transcribeCloseAction "" "" none] ∧
    ((transcribeRoute envDev (some sampleAudioB)
        [REvent.procError "spawn python3 ENOENT", REvent.closed none]).actions.countP isJsonAction) = 2 :=
  ⟨rfl, rfl⟩

/-- C1 counterexample: on a valid /prompt request whose child emits one
stdout chunk and exits with code 0, the chunk is written raw and
unframed on the wire; it is not a single SSE transport message (the
framed chunk write is commented out in the source), while the terminal
complete event is framed. -/
theorem c1_chunk_unframed_cex :
    (promptRoute envDev { prompt := "hi", images := [], messages := [] } none false
        [REvent.stdout "hello", REvent.closed (some 0)]).actions =
      sseHeaders ++ [RespAction.write (WireWrite.raw "hello"),
        RespAction.write (WireWrite.sse (completePayload (some 0))),
        RespAction.endResponse] ∧
    serializeWrite (WireWrite.raw "hello") = "hello" ∧
    isSSEFramed (serializeWrite (WireWrite.raw "hello")) = false ∧
    isSSEFramed (serializeWrite (WireWrite.sse (completePayload (some 0)))) = true :=
  ⟨rfl, rfl, rfl, rfl⟩

/-- C1 (amended): for every valid POST /prompt request, the response is
the SSE headers, then one raw unframed write per subprocess stdout
chunk in exact emission order with no reordering or merging, then
exactly one framed terminal complete event carrying the close code,
after which the response is ended. -/
theorem c1_prompt_stream_framing (e : Env) (body : PromptBody) (pre : List REvent)
    (c : Option Int)
    (hvalid : promptValidationFails (promptReqOf body none) = false)
    (hio : pre.all isIOEvent = true) :
    (promptRoute e body none false (pre ++ [REvent.closed c])).actions =
      sseHeaders ++ ((stdoutChunks pre).map fun d => RespAction.write (WireWrite.raw d)) ++
        [RespAction.write (WireWrite.sse (completePayload c)), RespAction.endResponse] ∧
    ((promptRoute e body none false (pre ++ [REvent.closed c])).actions.countP
      isCompleteWrite) = 1 := by
  have hact : (promptRoute e body none false (pre ++ [REvent.closed c])).actions =
      sseHeaders ++ eventsActions promptEventActions (pre ++ [REvent.closed c]) := by
    simp [promptRoute, audioUploadReject, promptHandler, hvalid]
  rw [hact, eventsActions_append, eventsActions_prompt_io pre hio]
  constructor
  · simp [eventsActions, promptEventActions]
  · rw [List.countP_append, List.countP_append, countP_complete_raw_map]
    rfl

/-- Witness for C1 at a two-chunk trace exiting with code 0. -/
theorem c1_prompt_stream_framing_witness :
    (promptValidationFails (promptReqOf { prompt := "hi", images := [], messages := [] } none) = false ∧
      ([REvent.stdout "He", REvent.stdout "llo"].all isIOEvent) = true) ∧
    ((promptRoute envDev { prompt := "hi", images := [], messages := [] } none false
        ([REvent.stdout "He", REvent.stdout "llo"] ++ [REvent.closed (some 0)])).actions =
      sseHeaders ++ ((stdoutChunks [REvent.stdout "He", REvent.stdout "llo"]).map
          fun d => RespAction.write (WireWrite.raw d)) ++
        [RespAction.write (WireWrite.sse (completePayload (some 0))), RespAction.endResponse] ∧
     ((promptRoute envDev { prompt := "hi", images := [], messages := [] } none false
        ([REvent.stdout "He", REvent.stdout "llo"] ++ [REvent.closed (some 0)])).actions.countP
       isCompleteWrite) = 1) :=
  ⟨⟨by decide, by decide⟩,
    c1_prompt_stream_framing envDev { prompt := "hi", images := [], messages := [] }
      [REvent.stdout "He", REvent.stdout "llo"] (some 0) (by decide) (by decide)⟩

/-- C2 counterexample: a document upload one byte over the 20 MiB limit
is rejected without spawning a process, but the response is the Express
default error page with status 500 — not a JSON response and not a 4xx
status, because no error-handling middleware is installed and the
multer error carries no status field. -/
theorem c2_oversized_document_cex :
    (uploadDocumentRoute envDev (some oversizedPdf) []).actions =
      [RespAction.defaultErrorPage 500 "File too large"] ∧
    (uploadDocumentRoute envDev (some oversizedPdf) []).spawns = [] ∧
    ((uploadDocumentRoute envDev (some oversizedPdf) []).actions.all
      fun a => !(is4xxJson a)) = true ∧
    ((uploadDocumentRoute envDev (some oversizedPdf) []).actions.all
      fun a => !(isJsonAction a)) = true :=
  ⟨rfl, rfl, rfl, rfl⟩

/-- C2 (amended): a document whose declared content type is not
application/pdf, a document over 20 MiB, or an audio attachment over
10 MiB (on /transcribe-audio or on /prompt) is rejected before the
route handler runs and no child process is spawned for the request; the
rejection is delivered by the Express default error handler as a 500
non-JSON page, not as a 4xx JSON validation error. -/
theorem c2_upload_validation_before_spawn (e : Env) (f g : UploadFile)
    (body : PromptBody) (td ta tp : List REvent) (st : Bool)
    (hdoc : (f.mimetype == "application/pdf") = false ∨ documentLimit < f.size)
    (haud : audioLimit < g.size) :
    ((uploadDocumentRoute e (some f) td).spawns = [] ∧
      (uploadDocumentRoute e (some f) td).actions =
        [RespAction.defaultErrorPage 500
          (if (f.mimetype == "application/pdf") = true then "File too large"
           else "Only PDF files are allowed")]) ∧
    ((transcribeRoute e (some g) ta).spawns = [] ∧
      (transcribeRoute e (some g) ta).actions =
        [RespAction.defaultErrorPage 500 "File too large"]) ∧
    ((promptRoute e body (some g) st tp).spawns = [] ∧
      (promptRoute e body (some g) st tp).actions =
        [RespAction.defaultErrorPage 500 "File too large"]) := by
  refine ⟨?_, ?_, ?_⟩
  · cases hm : f.mimetype == "application/pdf" with
    | false =>
      constructor <;>
        simp [uploadDocumentRoute, documentUploadReject, middlewareRejection, hm]
    | true =>
      have hsz : documentLimit < f.size := by
        rcases hdoc with h | h
        · rw [hm] at h; exact absurd h (by simp)
        · exact h
      constructor <;>
        simp [uploadDocumentRoute, documentUploadReject, middlewareRejection, hm, hsz]
  · constructor <;>
      simp [transcribeRoute, audioUploadReject, middlewareRejection, haud]
  · constructor <;>
      simp [promptRoute, audioUploadReject, middlewareRejection, haud]

/-- Witness for C2 at a text document and an oversized audio file. -/
theorem c2_upload_validation_before_spawn_witness :
    (((textDocument.mimetype == "application/pdf") = false ∨
        documentLimit < textDocument.size) ∧
      audioLimit < oversizedAudio.size) ∧
    (((uploadDocumentRoute envDev (some textDocument) []).spawns = [] ∧
      (uploadDocumentRoute envDev (some textDocument) []).actions =
        [RespAction.defaultErrorPage 500
          (if (textDocument.mimetype == "application/pdf") = true then "File too large"
           else "Only PDF files are allowed")]) ∧
    ((transcribeRoute envDev (some oversizedAudio) []).spawns = [] ∧
      (transcribeRoute envDev (some oversizedAudio) []).actions =
        [RespAction.defaultErrorPage 500 "File too large"]) ∧
    ((promptRoute envDev { prompt := "", images := [], messages := [] }
        (some oversizedAudio) false []).spawns = [] ∧
      (promptRoute envDev { prompt := "", images := [], messages := [] }
        (some oversizedAudio) false []).actions =
        [RespAction.defaultErrorPage 500 "File too large"])) :=
  ⟨⟨Or.inl (by decide), by decide⟩,
    c2_upload_validation_before_spawn envDev textDocument oversizedAudio
      { prompt := "", images := [], messages := [] } [] [] [] false
      (Or.inl (by decide)) (by decide)⟩

/-- C3 counterexample: on a valid /prompt request whose spawn fails
asynchronously (the child emits the error event), the response consists
of the SSE headers alone — no 5xx JSON is ever written, because the
error handler of this route is commented out — and the error event
fires with no listener, which is an uncaught exception that brings the
server process down. -/
theorem c3_prompt_start_failure_cex :
    (promptRoute envDev { prompt := "hi", images := [], messages := [] } none false
        [REvent.procError "spawn ENOENT"]).actions = sseHeaders ∧
    (promptRoute envDev { prompt := "hi", images := [], messages := [] } none false
        [REvent.procError "spawn ENOENT"]).unhandledError = true ∧
    ((promptRoute envDev { prompt := "hi", images := [], messages := [] } none false
        [REvent.procError "spawn ENOENT"]).actions.all
      fun a => !(is5xxJson a)) = true ∧
    ((promptRoute envDev { prompt := "hi", images := [], messages := [] } none false
        [REvent.procError "spawn ENOENT"]).actions.all
      fun a => !(isJsonAction a)) = true :=
  ⟨rfl, rfl, rfl, rfl⟩

/-- C3 (amended): on /transcribe-audio and /upload-document a start
failure reported through the child error event yields a synchronous 500
JSON response and nothing else; on /prompt only a synchronous spawn
exception yields a 500 JSON — an asynchronous start failure has no
listener, produces no response beyond the already-set SSE headers, and
leaves an unhandled error event that crashes the server process. -/
theorem c3_start_failure_behavior (e : Env) (af df : UploadFile)
    (body : PromptBody) (m : String)
    (ha : audioUploadReject (some af) = none)
    (hd : documentUploadReject (some df) = none)
    (hv : promptValidationFails (promptReqOf body none) = false) :
    ((transcribeRoute e (some af) [REvent.procError m]).actions =
        [transcribeErrorAction m] ∧
      is5xxJson (transcribeErrorAction m) = true) ∧
    ((uploadDocumentRoute e (some df) [REvent.procError m]).actions =
        [uploadErrorAction m] ∧
      is5xxJson (uploadErrorAction m) = true) ∧
    ((promptRoute e body none false [REvent.procError m]).actions = sseHeaders ∧
      (promptRoute e body none false [REvent.procError m]).unhandledError = true) ∧
    (promptRoute e body none true []).actions =
      sseHeaders ++ [RespAction.jsonRes 500 promptCatchBody] := by
  refine ⟨⟨?_, rfl⟩, ⟨?_, rfl⟩, ⟨?_, ?_⟩, ?_⟩
  · simp [transcribeRoute, ha, collectStep]
  · simp [uploadDocumentRoute, hd, collectStep]
  · simp [promptRoute, audioUploadReject, promptHandler, hv, eventsActions,
      promptEventActions]
  · simp [promptRoute, audioUploadReject, promptHandler, hv, hasProcError]
  · simp [promptRoute, audioUploadReject, promptHandler, hv]

/-- Witness for C3 at a small audio file, a small PDF and a concrete
failure message. -/
theorem c3_start_failure_behavior_witness :
    (audioUploadReject (some sampleAudio) = none ∧
      documentUploadReject (some samplePdf) = none ∧
      promptValidationFails (promptReqOf { prompt := "hi", images := [], messages := [] } none) = false) ∧
    (((transcribeRoute envDev (some sampleAudio) [REvent.procError "spawn python3 ENOENT"]).actions =
        [transcribeErrorAction "spawn python3 ENOENT"] ∧
      is5xxJson (transcribeErrorAction "spawn python3 ENOENT") = true) ∧
    ((uploadDocumentRoute envDev (some samplePdf) [REvent.procError "spawn python3 ENOENT"]).actions =
        [uploadErrorAction "spawn python3 ENOENT"] ∧
      is5xxJson (uploadErrorAction "spawn python3 ENOENT") = true) ∧
    ((promptRoute envDev { prompt := "hi", images := [], messages := [] } none false
        [REvent.procError "spawn python3 ENOENT"]).actions = sseHeaders ∧
      (promptRoute envDev { prompt := "hi", images := [], messages := [] } none false
        [REvent.procError "spawn python3 ENOENT"]).unhandledError = true) ∧
    (promptRoute envDev { prompt := "hi", images := [], messages := [] } none true []).actions =
      sseHeaders ++ [RespAction.jsonRes 500 promptCatchBody]) :=
  ⟨⟨by decide, by decide, by decide⟩,
    c3_start_failure_behavior envDev sampleAudio samplePdf
      { prompt := "hi", images := [], messages := [] } "spawn python3 ENOENT"
      (by decide) (by decide) (by decide)⟩

/-- C4 counterexample: on a valid /prompt request, a client disconnect
while the child is still running (no close event yet) sends no
termination signal at all — the disconnect handler is commented out in
the source — even though a child process was spawned. -/
theorem c4_prompt_disconnect_no_kill_cex :
    (promptRoute envDev { prompt := "hi", images := [], messages := [] } none false
        [REvent.disconnect]).kills = 0 ∧
    (promptRoute envDev { prompt := "hi", images := [], messages := [] } none false
        [REvent.disconnect]).spawns.length = 1 :=
  ⟨rfl, rfl⟩

/-- C4 (amended): POST /prompt registers no client-disconnect handler,
so the number of kill calls equals the number of close events of the
trace — a disconnect while the child runs produces no termination
signal, and the only kill is issued by the close handler after the
child has already exited. The variant /prompt-audio endpoint does kill
the child on a client disconnect. -/
theorem c4_disconnect_kill_behavior (e : Env) (body : PromptBody)
    (trace : List REvent) (req : PromptRequest)
    (hv : promptValidationFails (promptReqOf body none) = false)
    (hv2 : promptValidationFails req = false) :
    (promptRoute e body none false trace).kills = countClosed trace ∧
    (promptAudioHandler e req false [REvent.disconnect]).kills = 1 := by
  constructor
  · simp [promptRoute, audioUploadReject, promptHandler, hv,
      eventsKills_prompt_eq_countClosed]
  · simp [promptAudioHandler, hv2, eventsKills, promptAudioEventKills]

/-- Witness for C4 at a disconnect-then-stdout trace. -/
theorem c4_disconnect_kill_behavior_witness :
    (promptValidationFails (promptReqOf { prompt := "x", images := [], messages := [] } none) = false ∧
      promptValidationFails { prompt := "y", images := [], messages := [], audio := none } = false) ∧
    ((promptRoute envDev { prompt := "x", images := [], messages := [] } none false
        [REvent.disconnect, REvent.stdout "a"]).kills =
      countClosed [REvent.disconnect, REvent.stdout "a"] ∧
     (promptAudioHandler envDev { prompt := "y", images := [], messages := [], audio := none }
        false [REvent.disconnect]).kills = 1) :=
  ⟨⟨by decide, by decide⟩,
    c4_disconnect_kill_behavior envDev { prompt := "x", images := [], messages := [] }
      [REvent.disconnect, REvent.stdout "a"]
      { prompt := "y", images := [], messages := [], audio := none }
      (by decide) (by decide)⟩

/-- C6 counterexample: the variant /prompt-audio endpoint writes
nothing to the child stdin and does not end it; instead it passes the
quote-wrapped, quote-escaped serialized payload as a second
command-line argument after the script. Moreover /transcribe-audio
spawns the bare interpreter name python3, which is not the resolved
backend executable path. -/
theorem c6_payload_in_argv_cex :
    (promptAudioSpawnCall envDev
        { prompt := "hi", images := [], messages := [], audio := none }).stdinWrites = [] ∧
    (promptAudioSpawnCall envDev
        { prompt := "hi", images := [], messages := [], audio := none }).stdinEnded = false ∧
    (promptAudioSpawnCall envDev
        { prompt := "hi", images := [], messages := [], audio := none }).args =
      ["/app/src/python/llmUtils.py",
       "\x27\x7b\\\"prompt\\\":\\\"hi\\\",\\\"images\\\":[],\\\"messages\\\":[],\\\"audio\\\":null\x7d\x27"] ∧
    (transcribeSpawnCall envDev [1]).exe = "python3" ∧
    pythonExecutable envDev = "/app/venv_creativemate/bin/python3" ∧
    ("python3" == pythonExecutable envDev) = false :=
  ⟨rfl, rfl, rfl, rfl, rfl, rfl⟩

/-- C6 (amended): only /prompt starts the child with the resolved venv
executable; its argument vector is the script alone and is independent
of the request, and the serialized payload is delivered as one full
stdin write followed immediately by ending stdin. /transcribe-audio and
/upload-document deliver the payload the same way but spawn the bare
interpreter name python3. The variant /prompt-audio endpoint writes
nothing to stdin and passes the payload on the command line. -/
theorem c6_spawn_transport (e : Env) (req reqB : PromptRequest)
    (buf : List Nat) (doc : UploadFile) :
    promptSpawnCall e req =
      { exe := pythonExecutable e, args := [pythonScriptPath e],
        stdinWrites := [promptUserInput req], stdinEnded := true } ∧
    (promptSpawnCall e req).args = (promptSpawnCall e reqB).args ∧
    (transcribeSpawnCall e buf).exe = "python3" ∧
    (transcribeSpawnCall e buf).args = [pythonScriptPath e] ∧
    (transcribeSpawnCall e buf).stdinWrites = [stringifyJVal (transcribeInputData buf)] ∧
    (transcribeSpawnCall e buf).stdinEnded = true ∧
    (uploadSpawnCall e doc).exe = "python3" ∧
    (uploadSpawnCall e doc).args = [pythonScriptPath e] ∧
    (uploadSpawnCall e doc).stdinWrites = [stringifyJVal (documentInputData doc)] ∧
    (uploadSpawnCall e doc).stdinEnded = true ∧
    (promptAudioSpawnCall e req).stdinWrites = [] ∧
    (promptAudioSpawnCall e req).args =
      [variantScriptPath e, singleQuote ++ promptAudioUserInput req ++ singleQuote] :=
  ⟨rfl, rfl, rfl, rfl, rfl, rfl, rfl, rfl, rfl, rfl, rfl, rfl⟩

/-- C7: a POST /transcribe-audio request carrying an in-limit audio
file, whose child emits stdout and stderr data and then closes with
code c, is answered by exactly one response: the 200 JSON with success
true and the trimmed accumulated stdout precisely when c is the exit
code 0, and the 500 failure JSON otherwise. -/
theorem c7_transcribe_success_iff (e : Env) (f : UploadFile)
    (pre : List REvent) (c : Option Int)
    (hf : audioUploadReject (some f) = none)
    (hio : pre.all isIOEvent = true) :
    (transcribeRoute e (some f) (pre ++ [REvent.closed c])).actions =
      [transcribeCloseAction (concatStrings (stdoutChunks pre))
        (concatStrings (stderrChunks pre)) c] ∧
    ((transcribeRoute e (some f) (pre ++ [REvent.closed c])).actions =
        [RespAction.jsonRes 200 (JVal.obj
          [("success", JVal.bool true),
           ("transcribedText", JVal.str (concatStrings (stdoutChunks pre)).trim)])] ↔
      c = some 0) := by
  have hact : (transcribeRoute e (some f) (pre ++ [REvent.closed c])).actions =
      [transcribeCloseAction (concatStrings (stdoutChunks pre))
        (concatStrings (stderrChunks pre)) c] := by
    simp only [transcribeRoute, hf]
    rw [List.foldl_append,
      foldl_collectStep_io transcribeCloseAction transcribeErrorAction pre _ hio]
    simp [collectStep]
  refine ⟨hact, ?_⟩
  rw [hact]
  by_cases hc : c = some 0
  · subst hc
    simp [transcribeCloseAction]
  · simp only [transcribeCloseAction, if_neg hc]
    constructor
    · intro h
      exact absurd (congrArg (fun l => l.countP is5xxJson) h) (by
        intro hx
        simp [List.countP_cons, is5xxJson] at hx)
    · intro h
      exact absurd h hc

/-- Witness for C7 at a small file, one stdout chunk with surrounding
whitespace, and exit code 0. -/
theorem c7_transcribe_success_iff_witness :
    (audioUploadReject (some sampleAudioB) = none ∧
      ([REvent.stdout " hola ", REvent.stderr "warn"].all isIOEvent) = true) ∧
    ((transcribeRoute envDev (some sampleAudioB)
        ([REvent.stdout " hola ", REvent.stderr "warn"] ++ [REvent.closed (some 0)])).actions =
      [transcribeCloseAction
        (concatStrings (stdoutChunks [REvent.stdout " hola ", REvent.stderr "warn"]))
        (concatStrings (stderrChunks [REvent.stdout " hola ", REvent.stderr "warn"]))
        (some 0)] ∧
     ((transcribeRoute envDev (some sampleAudioB)
        ([REvent.stdout " hola ", REvent.stderr "warn"] ++ [REvent.closed (some 0)])).actions =
        [RespAction.jsonRes 200 (JVal.obj
          [("success", JVal.bool true),
           ("transcribedText", JVal.str
             (concatStrings (stdoutChunks [REvent.stdout " hola ", REvent.stderr "warn"])).trim)])] ↔
      (some 0 : Option Int) = some 0)) :=
  ⟨⟨by decide, by decide⟩,
    c7_transcribe_success_iff envDev sampleAudioB
      [REvent.stdout " hola ", REvent.stderr "warn"] (some 0) (by decide) (by decide)⟩

/-- C8 counterexample: when the child of a valid /prompt request is
terminated by a signal, the close event carries a null code and the
terminal complete event forwards it verbatim: its code field is the
JSON null, not an integer. -/
theorem c8_complete_code_null_cex :
    (promptRoute envDev { prompt := "hi", images := [], messages := [] } none false
        [REvent.closed none]).actions =
      sseHeaders ++ [RespAction.write (WireWrite.sse (JVal.obj
        [("type", JVal.str "complete"), ("code", JVal.null)])), RespAction.endResponse] ∧
    JVal.isIntVal (codeJ none) = false ∧
    serializeWrite (WireWrite.sse (completePayload none)) =
      "data: \x7b\"type\":\"complete\",\"code\":null\x7d\n\n" :=
  ⟨rfl, rfl, rfl⟩

/-- C8 (amended): the terminal complete event of a valid /prompt stream
carries exactly the code of the close event; that field is an integer
precisely when the child exited normally (the close code is non-null),
and JSON null when the child was terminated by a signal. -/
theorem c8_complete_code_nullable (e : Env) (body : PromptBody) (c : Option Int)
    (hv : promptValidationFails (promptReqOf body none) = false) :
    (promptRoute e body none false [REvent.closed c]).actions =
      sseHeaders ++ [RespAction.write (WireWrite.sse (completePayload c)),
        RespAction.endResponse] ∧
    JVal.isIntVal (codeJ c) = c.isSome := by
  constructor
  · simp [promptRoute, audioUploadReject, promptHandler, hv, eventsActions,
      promptEventActions]
  · cases c <;> rfl

/-- Witness for C8 at exit code 2. -/
theorem c8_complete_code_nullable_witness :
    promptValidationFails (promptReqOf { prompt := "hi", images := [], messages := [] } none) = false ∧
    ((promptRoute envDev { prompt := "hi", images := [], messages := [] } none false
        [REvent.closed (some 2)]).actions =
      sseHeaders ++ [RespAction.write (WireWrite.sse (completePayload (some 2))),
        RespAction.endResponse] ∧
     JVal.isIntVal (codeJ (some 2)) = (some 2 : Option Int).isSome) :=
  ⟨by decide,
    c8_complete_code_nullable envDev { prompt := "hi", images := [], messages := [] }
      (some 2) (by decide)⟩
